import Mathlib

/-!
Shallow embedding of the `@tfpkgr/logger` package (`src/index.ts` and its
`values` module).  The `Logger` class is modelled as a Lean structure; each
method becomes a function that takes the receiver explicitly and returns the
receiver's post-state together with any produced value.  The injected
capabilities (wall clock, call-stack resolution, console, filesystem) are
modelled as explicit parameters and as output lists: a console write is the
argument list handed to `console.log`, a file write is a `(path, text)` pair
handed to `fs.appendFileSync`.
-/

set_option autoImplicit false

/-- ANSI escape token `LoggerColors.Reset` from `values.ts`. -/
def LoggerColors.Reset : String := "\x1b[0m"

/-- ANSI escape token `LoggerColors.FgRed`. -/
def LoggerColors.FgRed : String := "\x1b[31m"

/-- ANSI escape token `LoggerColors.FgGreen`. -/
def LoggerColors.FgGreen : String := "\x1b[32m"

/-- ANSI escape token `LoggerColors.FgYellow`. -/
def LoggerColors.FgYellow : String := "\x1b[33m"

/-- ANSI escape token `LoggerColors.FgBlue`. -/
def LoggerColors.FgBlue : String := "\x1b[34m"

/-- ANSI escape token `LoggerColors.FgMagenta`. -/
def LoggerColors.FgMagenta : String := "\x1b[35m"

/-- ANSI escape token `LoggerColors.FgCyan`. -/
def LoggerColors.FgCyan : String := "\x1b[36m"

/-- ANSI escape token `LoggerColors.FgWhite`. -/
def LoggerColors.FgWhite : String := "\x1b[37m"

/-- ANSI escape token `LoggerColors.FgGray`. -/
def LoggerColors.FgGray : String := "\x1b[90m"

/-- ANSI escape token `LoggerColors.BgBlack`. -/
def LoggerColors.BgBlack : String := "\x1b[40m"

/-- ANSI escape token `LoggerColors.BgRed`. -/
def LoggerColors.BgRed : String := "\x1b[41m"

/-- The `LoggerLevels` enum of `values.ts`: name-to-rank lookup.  An
unrecognized name yields `none`, modelling the `undefined` a JavaScript
property access produces.  (At the TypeScript level the level arguments are
typed `keyof typeof LoggerLevels`, so only the eleven names below are
well-typed keys.) -/
def LoggerLevels : String → Option Nat
  | "SILLY" => some 0
  | "TRACE" => some 1
  | "DEBUG" => some 2
  | "VERBOSE" => some 3
  | "INFO" => some 4
  | "TIME" => some 5
  | "HTTP" => some 6
  | "SUCCESS" => some 7
  | "WARN" => some 8
  | "ERROR" => some 9
  | "FATAL" => some 10
  | _ => none

/-- JavaScript `<` on two possibly-`undefined` numbers: any comparison
involving `undefined` is `false` (it coerces to `NaN`). -/
def jsLt : Option Nat → Option Nat → Bool
  | some a, some b => a < b
  | _, _ => false

/-- JavaScript truthiness of a `string | undefined` value: `undefined` and
the empty string are falsy, every other string is truthy. -/
def jsTruthy : Option String → Bool
  | none => false
  | some s => !(s = "")

/-- JavaScript truthiness of a `number | undefined` value: `undefined` and
`0` are falsy. -/
def jsTruthyNum : Option Nat → Bool
  | none => false
  | some n => !(n = 0)

/-- JavaScript template-literal stringification of a `string | undefined`
value: `undefined` interpolates as the text `"undefined"`. -/
def jsToString : Option String → String
  | none => "undefined"
  | some s => s

/-- JavaScript `String.prototype.padStart`: left-pad with `c` up to length
`n` (no-op when the string is already at least that long). -/
def padStart (s : String) (n : Nat) (c : Char) : String :=
  if n ≤ s.length then s else String.mk (List.replicate (n - s.length) c) ++ s

/-- `n.toString().padStart(2, '0')`, as used for month and day numbers. -/
def natPad2 (n : Nat) : String :=
  padStart (Nat.repr n) 2 '0'

/-- `path.join` restricted to the shapes this program builds: separator
concatenation (the arguments constructed by the source carry no trailing
separators, so no normalization is needed). -/
def pathJoin (a b : String) : String :=
  a ++ "/" ++ b

/-- Result of `__getCallerInfo`: a `"relativePath:line"` location string and
a function name.  Stack inspection is an injected capability, so values of
this type are passed in where the source calls `__getCallerInfo()`. -/
structure CallerInfo where
  fileName : String
  method : String
  deriving DecidableEq, Repr

/-- The `parentTrace` field of a `Logger`.  `nil` stands for the absent
(`undefined` / `null`) link; `link` carries `parentPrefix`,
`parentCreationInfo`, `childCreationInfo` and the `inheritedTrace` chain. -/
inductive ParentTrace : Type where
  | nil : ParentTrace
  | link (parentPrefix : Option String) (parentCreationInfo : CallerInfo)
      (childCreationInfo : CallerInfo) (inheritedTrace : ParentTrace) : ParentTrace
  deriving DecidableEq, Repr

/-- Number of links in a `parentTrace` chain. -/
def chainLength : ParentTrace → Nat
  | .nil => 0
  | .link _ _ _ inh => chainLength inh + 1

/-- Instance state of a `Logger`: the `timeMap` (a key-value map, modelled
as an association list with unique keys), the optional message `prefix`
(field `prefixLabel` here, since `prefix` is reserved in Lean), the
`creationInfo` captured at construction, and the optional `parentTrace`. -/
structure Logger where
  timeMap : List (String × Nat)
  prefixLabel : Option String
  creationInfo : CallerInfo
  parentTrace : ParentTrace
  deriving DecidableEq, Repr

/-- The static (process-wide) configuration of the `Logger` class:
`globalLogLevel`, `logDirectory`, `enableFileLogging`. -/
structure LoggerStatics where
  globalLogLevel : String
  logDirectory : String
  enableFileLogging : Bool
  deriving DecidableEq, Repr

/-- The static defaults: level `INFO`, directory `<cwd>/.logs`, file
logging enabled. -/
def Logger.defaultStatics (cwd : String) : LoggerStatics :=
  { globalLogLevel := "INFO"
    logDirectory := pathJoin cwd ".logs"
    enableFileLogging := true }

/-- `Logger.setLogLevel`: validates the name against `LoggerLevels` before
assigning `globalLogLevel`; an unrecognized name throws (modelled as
`Except.error`, in which case no assignment has happened). -/
def setLogLevel (st : LoggerStatics) (level : String) : Except String LoggerStatics :=
  if LoggerLevels level ≠ none then
    Except.ok { st with globalLogLevel := level }
  else
    Except.error ("Invalid log level: " ++ level)

/-- `Logger.setLogDirectory`. -/
def setLogDirectory (st : LoggerStatics) (directory : String) : LoggerStatics :=
  { st with logDirectory := directory }

/-- `Logger.setFileLogging`. -/
def setFileLogging (st : LoggerStatics) (enable : Bool) : LoggerStatics :=
  { st with enableFileLogging := enable }

/-- The `Logger` constructor: `new Logger(prefix)` with the caller-info the
field initializer of `creationInfo` resolves.  `timeMap` starts empty and
`parentTrace` unset. -/
def Logger.new (prefixArg : Option String) (ci : CallerInfo) : Logger :=
  { timeMap := []
    prefixLabel := prefixArg
    creationInfo := ci
    parentTrace := ParentTrace.nil }

/-- `Logger.prototype.child`: builds a new logger whose prefix is
`` `${this.prefix} -> ${prefix}` `` when `this.prefix` is truthy and the
plain `prefix` argument otherwise, and attaches a trace link when `trace`
is true.  `ci` is the caller info resolved at the call site (used both for
`childCreationInfo` and, via the constructor, for the child's
`creationInfo`).  The first component of the result is the receiver's
post-state (the method assigns no field of `this`), the second the new
logger. -/
def Logger.child (l : Logger) (prefixArg : Option String) (trace : Bool)
    (ci : CallerInfo) : Logger × Logger :=
  let newLogger := Logger.new
    (if jsTruthy l.prefixLabel then
      some (jsToString l.prefixLabel ++ " -> " ++ jsToString prefixArg)
    else prefixArg) ci
  let newLogger :=
    if trace then
      { newLogger with parentTrace :=
          ParentTrace.link l.prefixLabel l.creationInfo ci l.parentTrace }
    else newLogger
  (l, newLogger)

/-- The trace lines collected by the `while (currentTrace)` loop inside
`Logger.prototype.log`, in traversal order (newest link first). -/
def traceMessagesOf : ParentTrace → List String
  | .nil => []
  | .link _ pci cci inh =>
    ("Trace: Parent created at " ++ pci.fileName ++ ", Child created at " ++ cci.fileName)
      :: traceMessagesOf inh

/-- Output of one log call: the console writes (each the argument list of
one `console.log` call, stringified) and the file writes (path and appended
text of each `fs.appendFileSync` call). -/
structure LogOutput where
  console : List (List String)
  fileWrites : List (String × String)
  deriving DecidableEq, Repr

/-- `Logger.prototype.__logToFile`: no-op when file logging is disabled,
otherwise append `message + "\n"` to
`logDirectory/<year>/<year>-<month>/<year>-<month>-<day>.log` built from the
current date (month is `getMonth() + 1`; month and day are zero-padded to
two digits). -/
def logToFile (st : LoggerStatics) (fullYear monthIndex dayOfMonth : Nat)
    (message : String) : List (String × String) :=
  if !st.enableFileLogging then []
  else
    let year := Nat.repr fullYear
    let month := natPad2 (monthIndex + 1)
    let date := natPad2 dayOfMonth
    let logDir := pathJoin st.logDirectory (year ++ "/" ++ year ++ "-" ++ month)
    let logFile := pathJoin logDir (year ++ "-" ++ month ++ "-" ++ date ++ ".log")
    [(logFile, message ++ "\n")]

/-- `Logger.prototype.__log`: the admission filter
`LoggerLevels[level] < LoggerLevels[globalLogLevel]` (JavaScript `<`, so an
`undefined` rank never filters), the single `console.log` call, and the
conditional `__logToFile` call for `ERROR` and `FATAL`.  `timestamp` is
`new Date().toISOString()`; `fullYear`, `monthIndex` and `dayOfMonth` are
the fields `__logToFile` reads off the same clock; `ci` is the caller info
resolved inside the call. -/
def Logger.logCore (l : Logger) (st : LoggerStatics) (timestamp : String)
    (fullYear monthIndex dayOfMonth : Nat) (ci : CallerInfo) (level : String)
    (messages : List String) (color : String) (bgColor : String) :
    Logger × LogOutput :=
  if jsLt (LoggerLevels level) (LoggerLevels st.globalLogLevel) then
    (l, { console := [], fileWrites := [] })
  else
    let consoleArgs : List String :=
      [bgColor ++ color ++ "\n" ++ timestamp ++ " |",
        padStart level 10 ' ',
        "\n|---",
        ci.fileName,
        "\n|---",
        ci.method,
        (if jsTruthy l.prefixLabel then "\n|--- " ++ jsToString l.prefixLabel else ""),
        "\n" ++ LoggerColors.Reset ++ LoggerColors.Reset]
      ++ messages ++ ["\n"]
    let fw :=
      if level = "ERROR" ∨ level = "FATAL" then
        logToFile st fullYear monthIndex dayOfMonth
          (timestamp ++ " | " ++ level ++ " | " ++ ci.fileName ++ " | " ++ ci.method
            ++ (if jsTruthy l.prefixLabel then " | " ++ jsToString l.prefixLabel else "")
            ++ " | " ++ String.intercalate " " messages)
      else []
    (l, { console := [consoleArgs], fileWrites := fw })

/-- `Logger.prototype.log`: when `parentTrace` is set, pushes the collected
trace lines, reversed (oldest ancestor first), onto the message list, then
delegates to `__log` with the default `Reset` colors. -/
def Logger.log (l : Logger) (st : LoggerStatics) (timestamp : String)
    (fullYear monthIndex dayOfMonth : Nat) (ci : CallerInfo) (level : String)
    (messages : List String) : Logger × LogOutput :=
  let messages :=
    if l.parentTrace ≠ ParentTrace.nil then
      messages ++ (traceMessagesOf l.parentTrace).reverse
    else messages
  Logger.logCore l st timestamp fullYear monthIndex dayOfMonth ci level messages
    LoggerColors.Reset LoggerColors.Reset

/-- `Logger.prototype.info`. -/
def Logger.info (l : Logger) (st : LoggerStatics) (timestamp : String)
    (fullYear monthIndex dayOfMonth : Nat) (ci : CallerInfo)
    (messages : List String) : Logger × LogOutput :=
  Logger.logCore l st timestamp fullYear monthIndex dayOfMonth ci "INFO" messages
    LoggerColors.FgCyan LoggerColors.BgBlack

/-- `Logger.prototype.warn`. -/
def Logger.warn (l : Logger) (st : LoggerStatics) (timestamp : String)
    (fullYear monthIndex dayOfMonth : Nat) (ci : CallerInfo)
    (messages : List String) : Logger × LogOutput :=
  Logger.logCore l st timestamp fullYear monthIndex dayOfMonth ci "WARN" messages
    LoggerColors.FgYellow LoggerColors.BgBlack

/-- `Logger.prototype.error`. -/
def Logger.error (l : Logger) (st : LoggerStatics) (timestamp : String)
    (fullYear monthIndex dayOfMonth : Nat) (ci : CallerInfo)
    (messages : List String) : Logger × LogOutput :=
  Logger.logCore l st timestamp fullYear monthIndex dayOfMonth ci "ERROR" messages
    LoggerColors.FgRed LoggerColors.BgBlack

/-- `Logger.prototype.success`. -/
def Logger.success (l : Logger) (st : LoggerStatics) (timestamp : String)
    (fullYear monthIndex dayOfMonth : Nat) (ci : CallerInfo)
    (messages : List String) : Logger × LogOutput :=
  Logger.logCore l st timestamp fullYear monthIndex dayOfMonth ci "SUCCESS" messages
    LoggerColors.FgGreen LoggerColors.BgBlack

/-- `Logger.prototype.debug`. -/
def Logger.debug (l : Logger) (st : LoggerStatics) (timestamp : String)
    (fullYear monthIndex dayOfMonth : Nat) (ci : CallerInfo)
    (messages : List String) : Logger × LogOutput :=
  Logger.logCore l st timestamp fullYear monthIndex dayOfMonth ci "DEBUG" messages
    LoggerColors.FgBlue LoggerColors.BgBlack

/-- `Logger.prototype.verbose`. -/
def Logger.verbose (l : Logger) (st : LoggerStatics) (timestamp : String)
    (fullYear monthIndex dayOfMonth : Nat) (ci : CallerInfo)
    (messages : List String) : Logger × LogOutput :=
  Logger.logCore l st timestamp fullYear monthIndex dayOfMonth ci "VERBOSE" messages
    LoggerColors.FgMagenta LoggerColors.BgBlack

/-- `Logger.prototype.fatal`. -/
def Logger.fatal (l : Logger) (st : LoggerStatics) (timestamp : String)
    (fullYear monthIndex dayOfMonth : Nat) (ci : CallerInfo)
    (messages : List String) : Logger × LogOutput :=
  Logger.logCore l st timestamp fullYear monthIndex dayOfMonth ci "FATAL" messages
    LoggerColors.FgWhite LoggerColors.BgRed

/-- `Logger.prototype.silly`. -/
def Logger.silly (l : Logger) (st : LoggerStatics) (timestamp : String)
    (fullYear monthIndex dayOfMonth : Nat) (ci : CallerInfo)
    (messages : List String) : Logger × LogOutput :=
  Logger.logCore l st timestamp fullYear monthIndex dayOfMonth ci "SILLY" messages
    LoggerColors.FgGray LoggerColors.BgBlack

/-- `Logger.prototype.http`. -/
def Logger.http (l : Logger) (st : LoggerStatics) (timestamp : String)
    (fullYear monthIndex dayOfMonth : Nat) (ci : CallerInfo)
    (messages : List String) : Logger × LogOutput :=
  Logger.logCore l st timestamp fullYear monthIndex dayOfMonth ci "HTTP" messages
    LoggerColors.FgMagenta LoggerColors.BgBlack

/-- `Logger.prototype.trace`. -/
def Logger.trace (l : Logger) (st : LoggerStatics) (timestamp : String)
    (fullYear monthIndex dayOfMonth : Nat) (ci : CallerInfo)
    (messages : List String) : Logger × LogOutput :=
  Logger.logCore l st timestamp fullYear monthIndex dayOfMonth ci "TRACE" messages
    LoggerColors.FgWhite LoggerColors.BgBlack

/-- Lookup in a `timeMap` association list (JavaScript property read;
`none` models `undefined`). -/
def mapGet : List (String × Nat) → String → Option Nat
  | [], _ => none
  | (k, v) :: rest, key => if k = key then some v else mapGet rest key

/-- Assignment `this.timeMap[label] = v`: overwrite the existing entry or
add a new one. -/
def mapSet : List (String × Nat) → String → Nat → List (String × Nat)
  | [], key, v => [(key, v)]
  | (k, w) :: rest, key, v =>
    if k = key then (key, v) :: rest else (k, w) :: mapSet rest key v

/-- `delete this.timeMap[label]`: remove the entry for the key. -/
def mapDelete : List (String × Nat) → String → List (String × Nat)
  | [], _ => []
  | (k, w) :: rest, key =>
    if k = key then mapDelete rest key else (k, w) :: mapDelete rest key

/-- `Logger.prototype.timeStart`: `this.timeMap[label] = Date.now()`,
returning `this`.  `nowMs` is the injected `Date.now()` value. -/
def Logger.timeStart (l : Logger) (label : String) (nowMs : Nat) : Logger :=
  { l with timeMap := mapSet l.timeMap label nowMs }

/-- `Logger.prototype.timeEnd`: when `this.timeMap[label]` is truthy, log
`` `${label}: ${Date.now() - startTime}ms` `` at level `TIME` in green and
delete the entry; otherwise log `` `${label}: -1ms` `` in red.  Returns
`this` either way. -/
def Logger.timeEnd (l : Logger) (st : LoggerStatics) (timestamp : String)
    (fullYear monthIndex dayOfMonth : Nat) (ci : CallerInfo) (label : String)
    (nowMs : Nat) : Logger × LogOutput :=
  let startTime := mapGet l.timeMap label
  if jsTruthyNum startTime then
    let duration : Int := (nowMs : Int) - ((startTime.getD 0 : Nat) : Int)
    let out := (Logger.logCore l st timestamp fullYear monthIndex dayOfMonth ci "TIME"
      [label ++ ": " ++ toString duration ++ "ms"]
      LoggerColors.FgGreen LoggerColors.BgBlack).2
    ({ l with timeMap := mapDelete l.timeMap label }, out)
  else
    let out := (Logger.logCore l st timestamp fullYear monthIndex dayOfMonth ci "TIME"
      [label ++ ": -1ms"]
      LoggerColors.FgRed LoggerColors.BgBlack).2
    (l, out)

/-- Concrete caller-info fixture used by witnesses and counterexamples. -/
def ciMain : CallerInfo := { fileName := "app.ts:10", method := "main" }

/-- Concrete statics fixture: the default level `INFO`, file logging on. -/
def stDefault : LoggerStatics :=
  { globalLogLevel := "INFO", logDirectory := "/tmp/logs", enableFileLogging := true }

/-- Concrete root logger fixture (no prefix, no trace link). -/
def rootLogger : Logger := Logger.new none ciMain

theorem jsLt_some_some (a b : Nat) : jsLt (some a) (some b) = decide (a < b) := rfl

theorem logCore_filtered (l : Logger) (st : LoggerStatics) (ts : String)
    (y mi d : Nat) (ci : CallerInfo) (level : String) (msgs : List String)
    (c b : String)
    (h : jsLt (LoggerLevels level) (LoggerLevels st.globalLogLevel) = true) :
    Logger.logCore l st ts y mi d ci level msgs c b
      = (l, { console := [], fileWrites := [] }) := by
  simp [Logger.logCore, h]

theorem logCore_not_filtered (l : Logger) (st : LoggerStatics) (ts : String)
    (y mi d : Nat) (ci : CallerInfo) (level : String) (msgs : List String)
    (c b : String)
    (h : jsLt (LoggerLevels level) (LoggerLevels st.globalLogLevel) = false) :
    Logger.logCore l st ts y mi d ci level msgs c b
      = (l,
        { console := [[b ++ c ++ "\n" ++ ts ++ " |", padStart level 10 ' ', "\n|---",
              ci.fileName, "\n|---", ci.method,
              (if jsTruthy l.prefixLabel then "\n|--- " ++ jsToString l.prefixLabel else ""),
              "\n" ++ LoggerColors.Reset ++ LoggerColors.Reset] ++ msgs ++ ["\n"]],
          fileWrites :=
            if level = "ERROR" ∨ level = "FATAL" then
              logToFile st y mi d
                (ts ++ " | " ++ level ++ " | " ++ ci.fileName ++ " | " ++ ci.method
                  ++ (if jsTruthy l.prefixLabel then " | " ++ jsToString l.prefixLabel else "")
                  ++ " | " ++ String.intercalate " " msgs)
            else [] }) := by
  simp [Logger.logCore, h]

/-- C1: for a recognized level, a log call (through `__log`, hence through
every severity method, and through the generic `log`) is dropped with no
console and no file output and with the receiver returned unchanged when
its rank is below the global level's rank, and otherwise produces exactly
one console write that carries the (padded) level name, the prefix block
when a prefix is set, and all message fragments in order, again returning
the receiver. -/
theorem admission_filter_and_console_format
    (l : Logger) (st : LoggerStatics) (ts : String) (y mi d : Nat)
    (ci : CallerInfo) (level : String) (msgs : List String) (c b : String)
    (rL rG : Nat) (hL : LoggerLevels level = some rL)
    (hG : LoggerLevels st.globalLogLevel = some rG) :
    (rL < rG →
      Logger.logCore l st ts y mi d ci level msgs c b
          = (l, { console := [], fileWrites := [] })
      ∧ Logger.log l st ts y mi d ci level msgs
          = (l, { console := [], fileWrites := [] }))
    ∧ (rG ≤ rL →
      ((Logger.logCore l st ts y mi d ci level msgs c b).1 = l
        ∧ ∃ args, (Logger.logCore l st ts y mi d ci level msgs c b).2.console = [args]
          ∧ padStart level 10 ' ' ∈ args
          ∧ (jsTruthy l.prefixLabel = true →
              ("\n|--- " ++ jsToString l.prefixLabel) ∈ args)
          ∧ msgs <:+: args)
      ∧ ((Logger.log l st ts y mi d ci level msgs).1 = l
        ∧ ∃ args, (Logger.log l st ts y mi d ci level msgs).2.console = [args]
          ∧ padStart level 10 ' ' ∈ args
          ∧ (jsTruthy l.prefixLabel = true →
              ("\n|--- " ++ jsToString l.prefixLabel) ∈ args)
          ∧ msgs <:+: args)) := by
  have hjs : jsLt (LoggerLevels level) (LoggerLevels st.globalLogLevel)
      = decide (rL < rG) := by
    rw [hL, hG]; rfl
  constructor
  · intro hlt
    have ht : jsLt (LoggerLevels level) (LoggerLevels st.globalLogLevel) = true := by
      rw [hjs]; simpa using hlt
    refine ⟨logCore_filtered _ _ _ _ _ _ _ _ _ _ _ ht, ?_⟩
    unfold Logger.log
    exact logCore_filtered _ _ _ _ _ _ _ _ _ _ _ ht
  · intro hge
    have hf : jsLt (LoggerLevels level) (LoggerLevels st.globalLogLevel) = false := by
      rw [hjs]; simpa using Nat.not_lt.mpr hge
    have hcore := logCore_not_filtered l st ts y mi d ci level msgs c b hf
    constructor
    · rw [hcore]
      refine ⟨rfl, _, rfl, ?_, ?_, List.infix_append _ _ _⟩
      · simp
      · intro hp; simp [hp]
    · unfold Logger.log
      by_cases htr : l.parentTrace = ParentTrace.nil
      · rw [if_neg (by simp [htr])]
        rw [logCore_not_filtered l st ts y mi d ci level msgs
          LoggerColors.Reset LoggerColors.Reset hf]
        refine ⟨rfl, _, rfl, ?_, ?_, List.infix_append _ _ _⟩
        · simp
        · intro hp; simp [hp]
      · rw [if_pos (by simp [htr])]
        rw [logCore_not_filtered l st ts y mi d ci level
          (msgs ++ (traceMessagesOf l.parentTrace).reverse)
          LoggerColors.Reset LoggerColors.Reset hf]
        refine ⟨rfl, _, rfl, ?_, ?_, ?_⟩
        · simp
        · intro hp; simp [hp]
        · exact ⟨[LoggerColors.Reset ++ LoggerColors.Reset ++ "\n" ++ ts ++ " |",
            padStart level 10 ' ', "\n|---", ci.fileName, "\n|---", ci.method,
            (if jsTruthy l.prefixLabel then "\n|--- " ++ jsToString l.prefixLabel else ""),
            "\n" ++ LoggerColors.Reset ++ LoggerColors.Reset],
            (traceMessagesOf l.parentTrace).reverse ++ ["\n"], by simp⟩

/-- Witness for C1: a `DEBUG` call under global level `INFO` is dropped
whole; a `WARN` call is admitted with a single console write holding the
padded level name and the fragments in order. -/
theorem admission_filter_and_console_format_witness :
    (Logger.logCore rootLogger stDefault "T0" 2024 2 7 ciMain "DEBUG" ["m1", "m2"]
        LoggerColors.Reset LoggerColors.Reset
      = (rootLogger, { console := [], fileWrites := [] }))
    ∧ ∃ args,
        (Logger.logCore rootLogger stDefault "T0" 2024 2 7 ciMain "WARN" ["m1", "m2"]
            LoggerColors.Reset LoggerColors.Reset).2.console = [args]
        ∧ padStart "WARN" 10 ' ' ∈ args ∧ ["m1", "m2"] <:+: args := by
  have h1 := admission_filter_and_console_format rootLogger stDefault "T0" 2024 2 7 ciMain
    "DEBUG" ["m1", "m2"] LoggerColors.Reset LoggerColors.Reset 2 4 rfl rfl
  have h2 := admission_filter_and_console_format rootLogger stDefault "T0" 2024 2 7 ciMain
    "WARN" ["m1", "m2"] LoggerColors.Reset LoggerColors.Reset 8 4 rfl rfl
  obtain ⟨-, args, hc, hpad, -, hinf⟩ := (h2.2 (by decide)).1
  exact ⟨(h1.1 (by decide)).1, args, hc, hpad, hinf⟩

theorem natPad2_cond : ∀ n < 100, natPad2 n
    = if n < 10 then "0" ++ Nat.repr n else Nat.repr n := by
  decide

/-- C2: in an admitted call, the file sink receives a write exactly when the
level is `ERROR` or `FATAL` and file logging is enabled; the write appends
`"<ts> | <LEVEL> | <location> | <function>[ | <prefix>] | <fragments>"` plus
a newline to `<logDirectory>/<YYYY>/<YYYY>-<MM>/<YYYY>-<MM>-<DD>.log`, with
month and day zero-padded to two digits; other admitted levels never write
to file; concretely, an `ERROR` on 2024-03-07 with directory `/tmp/logs`
writes to `/tmp/logs/2024/2024-03/2024-03-07.log`. -/
theorem file_sink_error_fatal_only
    (l : Logger) (st : LoggerStatics) (ts : String) (y mi d : Nat)
    (ci : CallerInfo) (level : String) (msgs : List String) (c b : String)
    (rL rG : Nat) (hL : LoggerLevels level = some rL)
    (hG : LoggerLevels st.globalLogLevel = some rG) (hadm : rG ≤ rL) :
    ((Logger.logCore l st ts y mi d ci level msgs c b).2.fileWrites ≠ []
      ↔ (st.enableFileLogging = true ∧ (level = "ERROR" ∨ level = "FATAL")))
    ∧ (st.enableFileLogging = true → (level = "ERROR" ∨ level = "FATAL") →
        (Logger.logCore l st ts y mi d ci level msgs c b).2.fileWrites
          = [(pathJoin (pathJoin st.logDirectory
                (Nat.repr y ++ "/" ++ Nat.repr y ++ "-" ++ natPad2 (mi + 1)))
              (Nat.repr y ++ "-" ++ natPad2 (mi + 1) ++ "-" ++ natPad2 d ++ ".log"),
            ts ++ " | " ++ level ++ " | " ++ ci.fileName ++ " | " ++ ci.method
              ++ (if jsTruthy l.prefixLabel then " | " ++ jsToString l.prefixLabel else "")
              ++ " | " ++ String.intercalate " " msgs ++ "\n")])
    ∧ (mi < 12 →
        natPad2 (mi + 1)
          = if mi + 1 < 10 then "0" ++ Nat.repr (mi + 1) else Nat.repr (mi + 1))
    ∧ (d ≤ 31 → natPad2 d = if d < 10 then "0" ++ Nat.repr d else Nat.repr d)
    ∧ ((Logger.logCore rootLogger stDefault "2024-03-07T12:00:00.000Z" 2024 2 7 ciMain
          "ERROR" ["boom"] LoggerColors.FgRed LoggerColors.BgBlack).2.fileWrites
        = [("/tmp/logs/2024/2024-03/2024-03-07.log",
            "2024-03-07T12:00:00.000Z | ERROR | app.ts:10 | main | boom\n")]) := by
  have hjs : jsLt (LoggerLevels level) (LoggerLevels st.globalLogLevel)
      = decide (rL < rG) := by
    rw [hL, hG]; rfl
  have hf : jsLt (LoggerLevels level) (LoggerLevels st.globalLogLevel) = false := by
    rw [hjs]; simpa using Nat.not_lt.mpr hadm
  rw [logCore_not_filtered l st ts y mi d ci level msgs c b hf]
  refine ⟨?_, ?_, ?_, ?_, ?_⟩
  · by_cases hef : level = "ERROR" ∨ level = "FATAL" <;>
      by_cases hen : st.enableFileLogging = true <;>
      simp [hef, hen, logToFile]
  · intro hen hef
    simp [hef, hen, logToFile, pathJoin, String.append_assoc]
  · intro hm
    exact natPad2_cond (mi + 1) (by omega)
  · intro hd
    exact natPad2_cond d (by omega)
  · decide

/-- Witness for C2: the concrete `ERROR` write of the theorem's last
conjunct, obtained by instantiating the theorem at level `ERROR` under the
default `INFO` minimum. -/
theorem file_sink_error_fatal_only_witness :
    (Logger.logCore rootLogger stDefault "2024-03-07T12:00:00.000Z" 2024 2 7 ciMain
        "ERROR" ["boom"] LoggerColors.FgRed LoggerColors.BgBlack).2.fileWrites
      = [("/tmp/logs/2024/2024-03/2024-03-07.log",
          "2024-03-07T12:00:00.000Z | ERROR | app.ts:10 | main | boom\n")] :=
  (file_sink_error_fatal_only rootLogger stDefault "2024-03-07T12:00:00.000Z" 2024 2 7
    ciMain "ERROR" ["boom"] LoggerColors.FgRed LoggerColors.BgBlack 9 4 rfl rfl
    (by decide)).2.2.2.2

/-- Concrete caller-info fixture: the call site creating child "A". -/
def ciChildA : CallerInfo := { fileName := "app.ts:20", method := "makeA" }

/-- Concrete caller-info fixture: the call site creating child "B". -/
def ciChildB : CallerInfo := { fileName := "app.ts:30", method := "makeB" }

theorem traceMessagesOf_length (t : ParentTrace) :
    (traceMessagesOf t).length = chainLength t := by
  induction t with
  | nil => rfl
  | link pp pci cci inh ih => simp [traceMessagesOf, chainLength, ih]

theorem traceMessagesOf_format (t : ParentTrace) :
    ∀ line ∈ traceMessagesOf t, ∃ p q : CallerInfo,
      line = "Trace: Parent created at " ++ p.fileName
        ++ ", Child created at " ++ q.fileName := by
  induction t with
  | nil => intro line hl; simp [traceMessagesOf] at hl
  | link pp pci cci inh ih =>
    intro line hl
    simp only [traceMessagesOf, List.mem_cons] at hl
    rcases hl with h | h
    · exact ⟨pci, cci, h⟩
    · exact ih line h

theorem mapGet_mapSet_self (m : List (String × Nat)) (k : String) (v : Nat) :
    mapGet (mapSet m k v) k = some v := by
  induction m with
  | nil => simp [mapSet, mapGet]
  | cons p rest ih =>
    obtain ⟨k', v'⟩ := p
    by_cases h : k' = k <;> simp [mapSet, mapGet, h, ih]

theorem mapGet_mapDelete_self (m : List (String × Nat)) (k : String) :
    mapGet (mapDelete m k) k = none := by
  induction m with
  | nil => simp [mapDelete, mapGet]
  | cons p rest ih =>
    obtain ⟨k', v'⟩ := p
    by_cases h : k' = k <;> simp [mapDelete, mapGet, h, ih]

/-- C3 (failing input): the generic log entry point called with the
unrecognized level name `"BOGUS"` under the default `INFO` minimum.  The
embedded source admits the call — JavaScript evaluates
`LoggerLevels["BOGUS"] < LoggerLevels["INFO"]` as `undefined < 4`, which is
`false` — and emits one console write and no file write, throwing nothing.
It does not fail fast with `InvalidLevel` as the specification requires. -/
theorem invalid_level_silently_logs :
    (Logger.log rootLogger stDefault "T0" 2024 2 7 ciMain "BOGUS" ["m"]).2.console.length = 1
    ∧ (Logger.log rootLogger stDefault "T0" 2024 2 7 ciMain "BOGUS" ["m"]).2.fileWrites = []
    ∧ (Logger.log rootLogger stDefault "T0" 2024 2 7 ciMain "BOGUS" ["m"]).1 = rootLogger := by
  decide

/-- C4: `setLogLevel` with a recognized name installs it as the new global
minimum; with an unrecognized name it throws `Invalid log level: ...`
(modelled as `Except.error`, thrown before any assignment, so the statics a
later log call reads are still the old ones, never an `ok` result). -/
theorem setLogLevel_validates (st : LoggerStatics) (level : String) :
    ((LoggerLevels level).isSome = true →
      setLogLevel st level = Except.ok { st with globalLogLevel := level })
    ∧ (LoggerLevels level = none →
      setLogLevel st level = Except.error ("Invalid log level: " ++ level)
      ∧ ∀ st' : LoggerStatics, setLogLevel st level ≠ Except.ok st') := by
  constructor
  · intro h
    rw [setLogLevel, if_pos (Option.isSome_iff_ne_none.mp h)]
  · intro h
    rw [setLogLevel, if_neg (by simp [h])]
    exact ⟨rfl, fun st' => by simp⟩

/-- Witness for C4: `"DEBUG"` is installed, `"NOPE"` throws. -/
theorem setLogLevel_validates_witness :
    setLogLevel stDefault "DEBUG"
      = Except.ok { stDefault with globalLogLevel := "DEBUG" }
    ∧ setLogLevel stDefault "NOPE" = Except.error ("Invalid log level: " ++ "NOPE") :=
  ⟨(setLogLevel_validates stDefault "DEBUG").1 rfl,
    ((setLogLevel_validates stDefault "NOPE").2 rfl).1⟩

/-- C5 (failing input): `child(undefined)` on a parent whose prefix is
`"A"`.  The embedded source interpolates the missing argument into the
template literal, so the child's prefix is the string `"A -> undefined"` —
not `"A"` as the specification requires. -/
theorem child_undefined_interpolates_undefined :
    ((Logger.new (some "A") ciMain).child none false ciMain).2.prefixLabel
      = some "A -> undefined" := by
  decide

/-- C6: a logger with a non-null trace link, logging through the generic
entry point, appends to the message list one line per link of the chain,
oldest ancestor first, each formatted as
`"Trace: Parent created at <parentLocation>, Child created at
<childLocation>"`; the two-link chain `root.child("A", true).child("B",
true)` renders exactly the root→A line followed by the A→B line. -/
theorem trace_chain_rendering
    (l : Logger) (st : LoggerStatics) (ts : String) (y mi d : Nat)
    (ci : CallerInfo) (level : String) (msgs : List String)
    (pp : Option String) (pci cci : CallerInfo) (inh : ParentTrace)
    (h : l.parentTrace = ParentTrace.link pp pci cci inh) :
    Logger.log l st ts y mi d ci level msgs
      = Logger.logCore l st ts y mi d ci level
          (msgs ++ (traceMessagesOf l.parentTrace).reverse)
          LoggerColors.Reset LoggerColors.Reset
    ∧ (traceMessagesOf l.parentTrace).length = chainLength l.parentTrace
    ∧ (∀ line ∈ traceMessagesOf l.parentTrace, ∃ p q : CallerInfo,
        line = "Trace: Parent created at " ++ p.fileName
          ++ ", Child created at " ++ q.fileName)
    ∧ (∀ rci aci bci : CallerInfo,
        (traceMessagesOf
            ((((Logger.new none rci).child (some "A") true aci).2.child
              (some "B") true bci).2.parentTrace)).reverse
          = ["Trace: Parent created at " ++ rci.fileName
              ++ ", Child created at " ++ aci.fileName,
             "Trace: Parent created at " ++ aci.fileName
              ++ ", Child created at " ++ bci.fileName]) := by
  refine ⟨?_, traceMessagesOf_length _, traceMessagesOf_format _, ?_⟩
  · simp [Logger.log, h]
  · intro rci aci bci
    rfl

/-- Witness for C6: the two-link chain built from the concrete fixtures
renders the root→A line first, then the A→B line. -/
theorem trace_chain_rendering_witness :
    (traceMessagesOf
        ((((Logger.new none ciMain).child (some "A") true ciChildA).2.child
          (some "B") true ciChildB).2.parentTrace)).reverse
      = ["Trace: Parent created at " ++ ciMain.fileName
          ++ ", Child created at " ++ ciChildA.fileName,
         "Trace: Parent created at " ++ ciChildA.fileName
          ++ ", Child created at " ++ ciChildB.fileName] :=
  (trace_chain_rendering
    ((((Logger.new none ciMain).child (some "A") true ciChildA).2.child
      (some "B") true ciChildB).2)
    stDefault "T0" 2024 2 7 ciMain "INFO" [] (some "A") ciChildA ciChildB
    (ParentTrace.link none ciMain ciChildA ParentTrace.nil)
    rfl).2.2.2 ciMain ciChildA ciChildB

/-- C7: `child` with `trace = false` attaches no trace link even when the
parent has one; with `trace = true` it attaches a link recording the
parent's prefix, the parent's creation info, the child's creation info, and
the parent's existing chain as the inherited part; so the chain grows by
exactly one per trace-enabled edge and resets to length zero on any
non-traced edge, and chain traversal produces one line per link (hence
terminates at the chain's end). -/
theorem trace_link_per_edge (l : Logger) (p : Option String) (ci : CallerInfo) :
    ((l.child p false ci).2.parentTrace = ParentTrace.nil)
    ∧ ((l.child p true ci).2.parentTrace
        = ParentTrace.link l.prefixLabel l.creationInfo ci l.parentTrace)
    ∧ chainLength (l.child p false ci).2.parentTrace = 0
    ∧ chainLength (l.child p true ci).2.parentTrace = chainLength l.parentTrace + 1
    ∧ (∀ t : ParentTrace, (traceMessagesOf t).length = chainLength t) :=
  ⟨rfl, rfl, rfl, rfl, traceMessagesOf_length⟩

/-- C9: `child` leaves the receiver untouched — its prefix, creation info,
trace link and timer map after the call are those it had before — and the
freshly constructed child has an empty timer map of its own. -/
theorem child_frame (l : Logger) (p : Option String) (tr : Bool) (ci : CallerInfo) :
    (l.child p tr ci).1 = l
    ∧ (l.child p tr ci).1.prefixLabel = l.prefixLabel
    ∧ (l.child p tr ci).1.creationInfo = l.creationInfo
    ∧ (l.child p tr ci).1.parentTrace = l.parentTrace
    ∧ (l.child p tr ci).1.timeMap = l.timeMap
    ∧ (l.child p tr ci).2.timeMap = [] := by
  cases tr <;> exact ⟨rfl, rfl, rfl, rfl, rfl, rfl⟩

/-- C10: a prefix equal to the empty string behaves as an absent prefix:
the whole output (console block and file line) of a log call is the same as
with no prefix, and `child` on such a logger gives the child exactly the
new prefix argument, without the `" -> "` separator. -/
theorem empty_prefix_as_absent
    (l : Logger) (st : LoggerStatics) (ts : String) (y mi d : Nat)
    (ci : CallerInfo) (level : String) (msgs : List String) (c b : String)
    (p : Option String) (tr : Bool) (ci2 : CallerInfo) :
    (Logger.logCore { l with prefixLabel := some "" } st ts y mi d ci level msgs c b).2
      = (Logger.logCore { l with prefixLabel := none } st ts y mi d ci level msgs c b).2
    ∧ (({ l with prefixLabel := some "" } : Logger).child p tr ci2).2.prefixLabel = p := by
  constructor
  · by_cases hf : jsLt (LoggerLevels level) (LoggerLevels st.globalLogLevel) = true
    · rw [logCore_filtered _ _ _ _ _ _ _ _ _ _ _ hf,
        logCore_filtered _ _ _ _ _ _ _ _ _ _ _ hf]
    · have hf' : jsLt (LoggerLevels level) (LoggerLevels st.globalLogLevel) = false := by
        simpa using hf
      rw [logCore_not_filtered _ _ _ _ _ _ _ _ _ _ _ hf',
        logCore_not_filtered _ _ _ _ _ _ _ _ _ _ _ hf']
      simp [jsTruthy]
  · cases tr <;> simp [Logger.child, Logger.new, jsTruthy]

/-- C8: `timeStart` records the given `Date.now()` value under the label,
overwriting any prior start (last start wins), and returns the instance;
when the label has a recorded (non-zero) start and the clock has not gone
backwards, an admitted `timeEnd` emits one `TIME`-level console line
`"<label>: <elapsed>ms"` with non-negative elapsed milliseconds and removes
the label from the map, so an immediately following second `timeEnd` emits
the sentinel `"<label>: -1ms"`; `timeEnd` with no recorded start emits the
sentinel line and leaves the receiver unchanged; the instance is returned
in every case. -/
theorem timer_start_end
    (l : Logger) (st : LoggerStatics) (ts : String) (y mi d : Nat)
    (ci : CallerInfo) (label : String) (t0 t1 t2 : Nat) (rG : Nat)
    (hG : LoggerLevels st.globalLogLevel = some rG) (hadm : rG ≤ 5) :
    (mapGet (l.timeStart label t0).timeMap label = some t0
      ∧ (l.timeStart label t0).prefixLabel = l.prefixLabel
      ∧ (l.timeStart label t0).creationInfo = l.creationInfo
      ∧ (l.timeStart label t0).parentTrace = l.parentTrace)
    ∧ (mapGet l.timeMap label = some t0 → t0 ≠ 0 → t0 ≤ t1 →
        (∃ args, (l.timeEnd st ts y mi d ci label t1).2.console = [args]
          ∧ (label ++ ": " ++ toString ((t1 : Int) - (t0 : Int)) ++ "ms") ∈ args)
        ∧ 0 ≤ (t1 : Int) - (t0 : Int)
        ∧ mapGet (l.timeEnd st ts y mi d ci label t1).1.timeMap label = none
        ∧ (∃ args,
            ((l.timeEnd st ts y mi d ci label t1).1.timeEnd st ts y mi d ci
                label t2).2.console = [args]
            ∧ (label ++ ": -1ms") ∈ args)
        ∧ (l.timeEnd st ts y mi d ci label t1).1.prefixLabel = l.prefixLabel
        ∧ (l.timeEnd st ts y mi d ci label t1).1.creationInfo = l.creationInfo
        ∧ (l.timeEnd st ts y mi d ci label t1).1.parentTrace = l.parentTrace)
    ∧ (mapGet l.timeMap label = none →
        (∃ args, (l.timeEnd st ts y mi d ci label t1).2.console = [args]
          ∧ (label ++ ": -1ms") ∈ args)
        ∧ (l.timeEnd st ts y mi d ci label t1).1 = l) := by
  have hf : jsLt (LoggerLevels "TIME") (LoggerLevels st.globalLogLevel) = false := by
    rw [hG]
    show decide (5 < rG) = false
    simpa using Nat.not_lt.mpr hadm
  refine ⟨⟨mapGet_mapSet_self l.timeMap label t0, rfl, rfl, rfl⟩, ?_, ?_⟩
  · intro h0 ht hle
    have hrun : l.timeEnd st ts y mi d ci label t1
        = ({ l with timeMap := mapDelete l.timeMap label },
          (Logger.logCore l st ts y mi d ci "TIME"
            [label ++ ": " ++ toString ((t1 : Int) - (t0 : Int)) ++ "ms"]
            LoggerColors.FgGreen LoggerColors.BgBlack).2) := by
      simp [Logger.timeEnd, h0, jsTruthyNum, ht]
    have hmiss : mapGet (mapDelete l.timeMap label) label = none :=
      mapGet_mapDelete_self l.timeMap label
    have hrun2 : ({ l with timeMap := mapDelete l.timeMap label } : Logger).timeEnd
        st ts y mi d ci label t2
        = ({ l with timeMap := mapDelete l.timeMap label },
          (Logger.logCore { l with timeMap := mapDelete l.timeMap label }
            st ts y mi d ci "TIME" [label ++ ": -1ms"]
            LoggerColors.FgRed LoggerColors.BgBlack).2) := by
      simp [Logger.timeEnd, hmiss, jsTruthyNum]
    rw [hrun]
    refine ⟨?_, by omega, by simpa using hmiss, ?_, rfl, rfl, rfl⟩
    · rw [logCore_not_filtered _ _ _ _ _ _ _ _ _ _ _ hf]
      exact ⟨_, rfl, by simp⟩
    · rw [hrun2, logCore_not_filtered _ _ _ _ _ _ _ _ _ _ _ hf]
      exact ⟨_, rfl, by simp⟩
  · intro h0
    have hrun : l.timeEnd st ts y mi d ci label t1
        = (l, (Logger.logCore l st ts y mi d ci "TIME" [label ++ ": -1ms"]
            LoggerColors.FgRed LoggerColors.BgBlack).2) := by
      simp [Logger.timeEnd, h0, jsTruthyNum]
    rw [hrun]
    exact ⟨⟨_, by rw [logCore_not_filtered _ _ _ _ _ _ _ _ _ _ _ hf], by simp⟩, rfl⟩

/-- Witness for C8: starting a timer `"x"` at 100 ms and ending it at
150 ms emits one console write containing `"x: 50ms"`. -/
theorem timer_start_end_witness :
    ∃ args,
      ((rootLogger.timeStart "x" 100).timeEnd stDefault "T0" 2024 2 7 ciMain
          "x" 150).2.console = [args]
      ∧ ("x" ++ ": " ++ toString ((150 : Int) - (100 : Int)) ++ "ms") ∈ args :=
  ((timer_start_end (rootLogger.timeStart "x" 100) stDefault "T0" 2024 2 7 ciMain
    "x" 100 150 0 4 rfl (by decide)).2.1 (by decide) (by decide) (by decide)).1
